import Mathlib

/-!
Shallow embedding of `src/stockholm_syndrome_loyalty_simulator.py`
(class `LoyaltyTracker`: `__init__`, `calculate_metrics`, `add_measurement`).

Numbers are modelled as rationals.  CPython values that may be non-finite
floats are modelled by `PyFloat` (a rational, NaN, +inf or -inf), with
Python's two-argument `min`/`max` builtins modelled faithfully: `min(a, b)`
keeps `a` unless `b < a`, `max(a, b)` keeps `a` unless `b > a`, and every
comparison involving NaN is false.  Python's `round` builtin (banker's
rounding, i.e. round-half-to-even) is modelled exactly on rationals.

The Python dict returned by `calculate_metrics` becomes the structure
`MetricRecord`; the ordered dict `self.loyalty_states` becomes an ordered
association list (Python 3.7 dicts preserve insertion order);
`self.history` becomes a `List MetricRecord`.  Each intermediate formula of
`calculate_metrics` (lines 26-44 of the source) is a named function of the
already-clamped inputs, applied in `LoyaltyTracker.calculate_metrics`
exactly as the source applies it.
-/

/-- A Python float value: finite (as an exact rational), NaN, +inf or -inf. -/
inductive PyFloat where
  | fin (q : ℚ)
  | nan
  | inf
  | ninf
  deriving DecidableEq, Repr

namespace PyFloat

/-- Python's `<` on float values: NaN compares false with everything,
-inf is below every finite value, +inf above. -/
def lt : PyFloat → PyFloat → Bool
  | fin a, fin b => a < b
  | fin _, inf => true
  | ninf, fin _ => true
  | ninf, inf => true
  | _, _ => false

/-- CPython's two-argument `min(a, b)`: start from `a`, replace by `b`
only when `b < a`. -/
def pymin (a b : PyFloat) : PyFloat := if lt b a then b else a

/-- CPython's two-argument `max(a, b)`: start from `a`, replace by `b`
only when `b > a` (i.e. `a < b`). -/
def pymax (a b : PyFloat) : PyFloat := if lt a b then b else a

/-- Whether the value is finite. -/
def isFin : PyFloat → Bool
  | fin _ => true
  | _ => false

end PyFloat

/-- The clamp `max(0, min(10, x))` from lines 21-23 of the source, as the
rational it always produces: `min(10, x)` keeps NaN and +inf out (both
clamp to 10, since `NaN < 10` and `10 < NaN` are false and `inf < 10` is
false), and `max(0, -inf)` yields 0. -/
def clampQ (x : PyFloat) : ℚ :=
  match PyFloat.pymax (.fin 0) (PyFloat.pymin (.fin 10) x) with
  | .fin q => q
  | _ => 0

/-- Round-half-to-even to an integer, as Python's `round` does
(on exact values; ties go to the even neighbour). -/
def rhe (q : ℚ) : ℤ :=
  if q - ⌊q⌋ = 1/2 ∧ ⌊q⌋ % 2 = 0 then ⌊q⌋ else ⌊q + 1/2⌋

/-- Python's `round(q, n)` for `n` decimal digits. -/
def pyround (q : ℚ) (n : ℕ) : ℚ := (rhe (q * 10 ^ n) : ℚ) / 10 ^ n

/-- Line 26: `true_satisfaction = satisfaction * (1 - manipulation/15)`. -/
def true_satisfactionF (s m : ℚ) : ℚ := s * (1 - m / 15)

/-- Line 27: `emotional_vulnerability = min(10, dependency*0.7 + manipulation*0.3)`
(both arguments finite, so Python `min` is the order-theoretic `min`). -/
def emotional_vulnerabilityF (d m : ℚ) : ℚ := min 10 (d * 0.7 + m * 0.3)

/-- Line 28: `autonomy = max(0, 10 - (dependency*0.5 + manipulation*0.5))`. -/
def autonomyF (d m : ℚ) : ℚ := max 0 (10 - (d * 0.5 + m * 0.5))

/-- Line 29: `power_imbalance = min(10, manipulation*0.6 + dependency*0.4)`. -/
def power_imbalanceF (d m : ℚ) : ℚ := min 10 (m * 0.6 + d * 0.4)

/-- Lines 32-37: the weighted health score. -/
def health_scoreF (s d m : ℚ) : ℚ :=
  (true_satisfactionF s m / 10 * 30) +
  (autonomyF d m / 10 * 25) +
  ((10 - d) / 10 * 25) +
  ((10 - power_imbalanceF d m) / 10 * 20)

/-- Lines 40-44: the risk-factor list, built by four appends in order. -/
def risk_factorsF (s d m : ℚ) : List String :=
  (if m > 6 then ["High Manipulation"] else []) ++
  (if d > 7 then ["High Dependency"] else []) ++
  (if true_satisfactionF s m < 4 then ["Low Satisfaction"] else []) ++
  (if autonomyF d m < 3 then ["Low Autonomy"] else [])

/-- The `color`/`threshold` pair stored for each loyalty state
(lines 10-16 of the source). -/
structure StateProps where
  color : String
  threshold : ℚ
  deriving DecidableEq, Repr

/-- The dict returned by `calculate_metrics` (lines 53-65 of the source). -/
structure MetricRecord where
  timestamp : ℕ
  satisfaction : ℚ
  true_satisfaction : ℚ
  dependency : ℚ
  manipulation : ℚ
  emotional_vulnerability : ℚ
  autonomy : ℚ
  power_imbalance : ℚ
  health_score : ℚ
  loyalty_state : String
  risk_factors : List String
  deriving DecidableEq, Repr

/-- The mutable state of a `LoyaltyTracker` instance: `self.name`,
`self.history` and the ordered dict `self.loyalty_states`. -/
structure LoyaltyTracker where
  name : String
  history : List MetricRecord
  loyalty_states : List (String × StateProps)
  deriving Repr

/-- The literal ordered mapping built in `__init__` (lines 10-16). -/
def initialLoyaltyStates : List (String × StateProps) :=
  [("Healthy", ⟨"#2ecc71", 75⟩),
   ("Stable", ⟨"#3498db", 60⟩),
   ("At Risk", ⟨"#f1c40f", 50⟩),
   ("Unstable", ⟨"#e67e22", 40⟩),
   ("Toxic", ⟨"#e74c3c", 0⟩)]

/-- `LoyaltyTracker.__init__(name)` (lines 7-16). -/
def LoyaltyTracker.init (name : String) : LoyaltyTracker :=
  { name := name, history := [], loyalty_states := initialLoyaltyStates }

/-- The state-selection loop of lines 46-51: `loyalty_state` starts as the
default `"Toxic"`; the loop takes the first entry whose threshold is at most
`health_score` and breaks. -/
def selectState : List (String × StateProps) → ℚ → String
  | [], _ => "Toxic"
  | (state, props) :: rest, health_score =>
      if props.threshold ≤ health_score then state else selectState rest health_score

/-- `LoyaltyTracker.calculate_metrics(self, satisfaction, dependency,
manipulation)` (lines 18-65), with the `'timestamp'` entry taken from
`len(self.history) + 1` exactly as line 54 does. -/
def LoyaltyTracker.calculate_metrics (self : LoyaltyTracker)
    (satisfaction dependency manipulation : PyFloat) : MetricRecord :=
  let s := clampQ satisfaction
  let d := clampQ dependency
  let m := clampQ manipulation
  { timestamp := self.history.length + 1
    satisfaction := s
    true_satisfaction := pyround (true_satisfactionF s m) 2
    dependency := d
    manipulation := m
    emotional_vulnerability := pyround (emotional_vulnerabilityF d m) 2
    autonomy := pyround (autonomyF d m) 2
    power_imbalance := pyround (power_imbalanceF d m) 2
    health_score := pyround (health_scoreF s d m) 1
    loyalty_state := selectState self.loyalty_states (health_scoreF s d m)
    risk_factors := risk_factorsF s d m }

/-- `LoyaltyTracker.add_measurement(self, satisfaction, dependency,
manipulation)` (lines 67-70).  The pair holds the updated tracker state and
the Python return value: the function body has no `return` statement, so it
returns `None`, modelled as `Option.none`. -/
def LoyaltyTracker.add_measurement (self : LoyaltyTracker)
    (satisfaction dependency manipulation : PyFloat) :
    LoyaltyTracker × Option MetricRecord :=
  let metrics := self.calculate_metrics satisfaction dependency manipulation
  ({ self with history := self.history ++ [metrics] }, none)

/-- Run a list of `add_measurement` calls in order, as the example loop at
lines 249-250 of the source does. -/
def runAppends (t : LoyaltyTracker) : List (PyFloat × PyFloat × PyFloat) → LoyaltyTracker
  | [] => t
  | (s, d, m) :: rest => runAppends (t.add_measurement s d m).1 rest

theorem clampQ_fin (q : ℚ) : clampQ (.fin q) = max 0 (min 10 q) := by
  rcases lt_or_le q 10 with h | h
  · rcases lt_or_le 0 q with h0 | h0
    · simp [clampQ, PyFloat.pymin, PyFloat.pymax, PyFloat.lt, h, h0,
        min_eq_right h.le, max_eq_right h0.le]
    · simp [clampQ, PyFloat.pymin, PyFloat.pymax, PyFloat.lt, h, not_lt.2 h0,
        min_eq_right h.le, max_eq_left h0]
  · have h10 : ¬ (q < 10) := not_lt.2 h
    simp [clampQ, PyFloat.pymin, PyFloat.pymax, PyFloat.lt, h10,
      min_eq_left h, max_eq_right (by norm_num : (0:ℚ) ≤ 10)]

theorem clampQ_nan : clampQ .nan = 10 := rfl

theorem clampQ_inf : clampQ .inf = 10 := rfl

theorem clampQ_ninf : clampQ .ninf = 0 := rfl

theorem clampQ_nonneg (x : PyFloat) : 0 ≤ clampQ x := by
  cases x <;> simp [clampQ_fin, clampQ_nan, clampQ_inf, clampQ_ninf, le_max_left]

theorem clampQ_le_ten (x : PyFloat) : clampQ x ≤ 10 := by
  cases x with
  | fin q =>
      rw [clampQ_fin]
      exact max_le (by norm_num) (min_le_left _ _)
  | nan => rw [clampQ_nan]
  | inf => rw [clampQ_inf]
  | ninf => rw [clampQ_ninf]; norm_num

theorem clamp_of_bounded {a : ℚ} (h0 : 0 ≤ a) (h10 : a ≤ 10) :
    max 0 (min 10 a) = a := by
  rw [min_eq_right h10, max_eq_right h0]

theorem clampQ_idem (x : PyFloat) : clampQ (.fin (clampQ x)) = clampQ x := by
  rw [clampQ_fin]
  exact clamp_of_bounded (clampQ_nonneg x) (clampQ_le_ten x)

theorem rhe_nonneg {q : ℚ} (h : 0 ≤ q) : 0 ≤ rhe q := by
  unfold rhe
  split_ifs with h1
  · exact Int.floor_nonneg.2 h
  · exact Int.floor_nonneg.2 (by linarith)

theorem rhe_le_intCast {q : ℚ} {z : ℤ} (h : q ≤ z) : rhe q ≤ z := by
  unfold rhe
  split_ifs with h1
  · exact (Int.floor_le_floor h).trans_eq (Int.floor_intCast z)
  · have : q + 1/2 < ((z + 1 : ℤ) : ℚ) := by push_cast; linarith
    have := Int.floor_lt.2 this
    omega

theorem rhe_mono {q r : ℚ} (h : q ≤ r) : rhe q ≤ rhe r := by
  unfold rhe
  have hf : ⌊q⌋ ≤ ⌊r⌋ := Int.floor_le_floor h
  have hf2 : ⌊q + 1/2⌋ ≤ ⌊r + 1/2⌋ := Int.floor_le_floor (by linarith)
  have hq1 : ⌊q⌋ ≤ ⌊q + 1/2⌋ := Int.floor_le_floor (by linarith)
  split_ifs with h1 h2 h2
  · exact hf
  · exact hq1.trans hf2
  · rcases eq_or_lt_of_le h with rfl | hlt
    · exact absurd h2 h1
    · have hr : r = (⌊r⌋ : ℚ) + 1/2 := by linarith [h2.1]
      have hlt2 : q + 1/2 < ((⌊r⌋ + 1 : ℤ) : ℚ) := by push_cast; linarith
      have := Int.floor_lt.2 hlt2
      omega
  · exact hf2

theorem pyround_nonneg {q : ℚ} (h : 0 ≤ q) (n : ℕ) : 0 ≤ pyround q n := by
  unfold pyround
  have h1 : (0:ℚ) ≤ (rhe (q * 10 ^ n) : ℚ) := by
    exact_mod_cast rhe_nonneg (mul_nonneg h (by positivity))
  positivity

theorem pyround_le_intCast {q : ℚ} {z : ℤ} (h : q ≤ z) (n : ℕ) :
    pyround q n ≤ z := by
  unfold pyround
  have hpow : (0:ℚ) < 10 ^ n := by positivity
  have h1 : q * 10 ^ n ≤ ((z * 10 ^ n : ℤ) : ℚ) := by
    push_cast
    exact mul_le_mul_of_nonneg_right h hpow.le
  have h2 : (rhe (q * 10 ^ n) : ℚ) ≤ ((z * 10 ^ n : ℤ) : ℚ) := by
    exact_mod_cast rhe_le_intCast h1
  rw [div_le_iff₀ hpow]
  calc (rhe (q * 10 ^ n) : ℚ) ≤ ((z * 10 ^ n : ℤ) : ℚ) := h2
    _ = (z : ℚ) * 10 ^ n := by push_cast; ring

theorem pyround_mono {q r : ℚ} (h : q ≤ r) (n : ℕ) :
    pyround q n ≤ pyround r n := by
  unfold pyround
  have hpow : (0:ℚ) < 10 ^ n := by positivity
  have h1 : rhe (q * 10 ^ n) ≤ rhe (r * 10 ^ n) :=
    rhe_mono (mul_le_mul_of_nonneg_right h hpow.le)
  have h2 : (rhe (q * 10 ^ n) : ℚ) ≤ (rhe (r * 10 ^ n) : ℚ) := by exact_mod_cast h1
  gcongr

theorem true_satisfactionF_nonneg {s m : ℚ} (hs : 0 ≤ s) (hm : m ≤ 10) :
    0 ≤ true_satisfactionF s m := by
  unfold true_satisfactionF
  nlinarith

theorem true_satisfactionF_le_ten {s m : ℚ} (hs : s ≤ 10) (hs0 : 0 ≤ s)
    (hm : 0 ≤ m) : true_satisfactionF s m ≤ 10 := by
  unfold true_satisfactionF
  nlinarith

theorem emotional_vulnerabilityF_nonneg {d m : ℚ} (hd : 0 ≤ d) (hm : 0 ≤ m) :
    0 ≤ emotional_vulnerabilityF d m := by
  unfold emotional_vulnerabilityF
  exact le_min (by norm_num) (by nlinarith)

theorem emotional_vulnerabilityF_le_ten (d m : ℚ) :
    emotional_vulnerabilityF d m ≤ 10 :=
  min_le_left _ _

theorem autonomyF_nonneg (d m : ℚ) : 0 ≤ autonomyF d m :=
  le_max_left _ _

theorem autonomyF_le_ten {d m : ℚ} (hd : 0 ≤ d) (hm : 0 ≤ m) :
    autonomyF d m ≤ 10 := by
  unfold autonomyF
  exact max_le (by norm_num) (by nlinarith)

theorem power_imbalanceF_nonneg {d m : ℚ} (hd : 0 ≤ d) (hm : 0 ≤ m) :
    0 ≤ power_imbalanceF d m := by
  unfold power_imbalanceF
  exact le_min (by norm_num) (by nlinarith)

theorem power_imbalanceF_le_ten (d m : ℚ) : power_imbalanceF d m ≤ 10 :=
  min_le_left _ _

theorem health_scoreF_nonneg {s d m : ℚ} (hs0 : 0 ≤ s)
    (hd10 : d ≤ 10) (hm10 : m ≤ 10) : 0 ≤ health_scoreF s d m := by
  have h1 := true_satisfactionF_nonneg hs0 hm10
  have h2 := autonomyF_nonneg d m
  have h3 := power_imbalanceF_le_ten d m
  unfold health_scoreF
  linarith

theorem health_scoreF_le_hundred {s d m : ℚ} (hs0 : 0 ≤ s) (hs10 : s ≤ 10)
    (hd0 : 0 ≤ d) (hm0 : 0 ≤ m) : health_scoreF s d m ≤ 100 := by
  have h1 := true_satisfactionF_le_ten hs10 hs0 hm0
  have h2 := autonomyF_le_ten hd0 hm0
  have h3 := power_imbalanceF_nonneg hd0 hm0
  unfold health_scoreF
  linarith

theorem health_scoreF_mono_s {s s' d m : ℚ} (hm : m ≤ 10) (hs : s ≤ s') :
    health_scoreF s d m ≤ health_scoreF s' d m := by
  unfold health_scoreF true_satisfactionF
  have h1 : s * (1 - m / 15) ≤ s' * (1 - m / 15) :=
    mul_le_mul_of_nonneg_right hs (by linarith)
  linarith

theorem health_scoreF_anti_d {s d d' m : ℚ} (hd : d ≤ d') :
    health_scoreF s d' m ≤ health_scoreF s d m := by
  unfold health_scoreF
  have h1 : autonomyF d' m ≤ autonomyF d m := by
    unfold autonomyF
    exact max_le_max le_rfl (by linarith)
  have h2 : power_imbalanceF d m ≤ power_imbalanceF d' m := by
    unfold power_imbalanceF
    exact min_le_min le_rfl (by linarith)
  linarith

theorem health_scoreF_anti_m {s d m m' : ℚ} (hs : 0 ≤ s) (hm : m ≤ m') :
    health_scoreF s d m' ≤ health_scoreF s d m := by
  unfold health_scoreF
  have h0 : true_satisfactionF s m' ≤ true_satisfactionF s m := by
    unfold true_satisfactionF
    exact mul_le_mul_of_nonneg_left (by linarith) hs
  have h1 : autonomyF d m' ≤ autonomyF d m := by
    unfold autonomyF
    exact max_le_max le_rfl (by linarith)
  have h2 : power_imbalanceF d m ≤ power_imbalanceF d m' := by
    unfold power_imbalanceF
    exact min_le_min le_rfl (by linarith)
  linarith

theorem clampQ_fin_mono {a b : ℚ} (h : a ≤ b) :
    clampQ (.fin a) ≤ clampQ (.fin b) := by
  rw [clampQ_fin, clampQ_fin]
  exact max_le_max le_rfl (min_le_min le_rfl h)

theorem calculate_metrics_timestamp (t : LoyaltyTracker) (s d m : PyFloat) :
    (t.calculate_metrics s d m).timestamp = t.history.length + 1 := rfl

theorem calculate_metrics_true_satisfaction (t : LoyaltyTracker) (s d m : PyFloat) :
    (t.calculate_metrics s d m).true_satisfaction
      = pyround (true_satisfactionF (clampQ s) (clampQ m)) 2 := rfl

theorem calculate_metrics_emotional_vulnerability (t : LoyaltyTracker) (s d m : PyFloat) :
    (t.calculate_metrics s d m).emotional_vulnerability
      = pyround (emotional_vulnerabilityF (clampQ d) (clampQ m)) 2 := rfl

theorem calculate_metrics_autonomy (t : LoyaltyTracker) (s d m : PyFloat) :
    (t.calculate_metrics s d m).autonomy
      = pyround (autonomyF (clampQ d) (clampQ m)) 2 := rfl

theorem calculate_metrics_power_imbalance (t : LoyaltyTracker) (s d m : PyFloat) :
    (t.calculate_metrics s d m).power_imbalance
      = pyround (power_imbalanceF (clampQ d) (clampQ m)) 2 := rfl

theorem calculate_metrics_health_score (t : LoyaltyTracker) (s d m : PyFloat) :
    (t.calculate_metrics s d m).health_score
      = pyround (health_scoreF (clampQ s) (clampQ d) (clampQ m)) 1 := rfl

theorem calculate_metrics_loyalty_state (t : LoyaltyTracker) (s d m : PyFloat) :
    (t.calculate_metrics s d m).loyalty_state
      = selectState t.loyalty_states (health_scoreF (clampQ s) (clampQ d) (clampQ m)) := rfl

theorem calculate_metrics_risk_factors (t : LoyaltyTracker) (s d m : PyFloat) :
    (t.calculate_metrics s d m).risk_factors
      = risk_factorsF (clampQ s) (clampQ d) (clampQ m) := rfl

theorem add_measurement_history (t : LoyaltyTracker) (s d m : PyFloat) :
    (t.add_measurement s d m).1.history
      = t.history ++ [t.calculate_metrics s d m] := rfl

theorem calculate_metrics_congr (t : LoyaltyTracker) {s s' d d' m m' : PyFloat}
    (hs : clampQ s = clampQ s') (hd : clampQ d = clampQ d') (hm : clampQ m = clampQ m') :
    t.calculate_metrics s d m = t.calculate_metrics s' d' m' := by
  simp only [LoyaltyTracker.calculate_metrics]
  rw [hs, hd, hm]

theorem runAppends_history_length (t : LoyaltyTracker)
    (l : List (PyFloat × PyFloat × PyFloat)) :
    (runAppends t l).history.length = t.history.length + l.length := by
  induction l generalizing t with
  | nil => simp [runAppends]
  | cons head tail ih =>
      obtain ⟨s, d, m⟩ := head
      rw [runAppends, ih, add_measurement_history]
      simp only [List.length_append, List.length_cons, List.length_nil]
      omega

theorem runAppends_history_extends (t : LoyaltyTracker)
    (l : List (PyFloat × PyFloat × PyFloat)) :
    ∃ rest, (runAppends t l).history = t.history ++ rest := by
  induction l generalizing t with
  | nil => exact ⟨[], by simp [runAppends]⟩
  | cons head tail ih =>
      obtain ⟨s, d, m⟩ := head
      obtain ⟨r, hr⟩ := ih (t.add_measurement s d m).1
      refine ⟨t.calculate_metrics s d m :: r, ?_⟩
      rw [runAppends, hr, add_measurement_history]
      simp

theorem runAppends_timestamps (t : LoyaltyTracker)
    (l : List (PyFloat × PyFloat × PyFloat))
    (H : ∀ i (hi : i < t.history.length), (t.history.get ⟨i, hi⟩).timestamp = i + 1) :
    ∀ i (hi : i < (runAppends t l).history.length),
      ((runAppends t l).history.get ⟨i, hi⟩).timestamp = i + 1 := by
  induction l generalizing t with
  | nil => simpa [runAppends] using H
  | cons head tail ih =>
      obtain ⟨s, d, m⟩ := head
      rw [runAppends]
      apply ih
      intro i hi
      rw [add_measurement_history] at hi
      simp only [List.length_append, List.length_singleton] at hi
      simp only [List.get_eq_getElem, add_measurement_history]
      rcases lt_or_ge i t.history.length with h | h
      · rw [List.getElem_append_left h]
        simpa using H i h
      · have hieq : i = t.history.length := by omega
        subst hieq
        rw [List.getElem_append_right (le_refl _)]
        simp [calculate_metrics_timestamp]

example :
    ((LoyaltyTracker.init "A").calculate_metrics (.fin 0) (.fin 0) (.fin 0)).health_score
      = 70 := by
  norm_num [LoyaltyTracker.calculate_metrics, LoyaltyTracker.init, clampQ_fin,
    health_scoreF, true_satisfactionF, autonomyF, power_imbalanceF, pyround, rhe]

example :
    ((LoyaltyTracker.init "A").calculate_metrics (.fin 0) (.fin 0) (.fin 0)).risk_factors
      = ["Low Satisfaction"] := by
  norm_num [LoyaltyTracker.calculate_metrics, LoyaltyTracker.init, clampQ_fin,
    risk_factorsF, true_satisfactionF, autonomyF]

example :
    ((LoyaltyTracker.init "A").calculate_metrics (.fin 2) (.fin 8) (.fin 7)).health_score
      = 196 / 10 := by
  norm_num [LoyaltyTracker.calculate_metrics, LoyaltyTracker.init, clampQ_fin,
    health_scoreF, true_satisfactionF, autonomyF, power_imbalanceF, pyround, rhe]

example :
    ((LoyaltyTracker.init "A").calculate_metrics (.fin 2) (.fin 8) (.fin 7)).loyalty_state
      = "Toxic" := by
  norm_num [LoyaltyTracker.calculate_metrics, LoyaltyTracker.init, initialLoyaltyStates,
    clampQ_fin, selectState, health_scoreF, true_satisfactionF, autonomyF, power_imbalanceF]

/-- C1 counterexample: `calculate_metrics` is not pure with respect to state.
With identical inputs (5,5,5), a tracker with an empty history and the same
tracker after one `add_measurement` call return different records (their
`timestamp` entries are 1 and 2 respectively), because line 54 of the source
reads `len(self.history) + 1` inside `calculate_metrics` itself. -/
theorem calculate_metrics_depends_on_history :
    (LoyaltyTracker.init "A").calculate_metrics (.fin 5) (.fin 5) (.fin 5) ≠
      ((LoyaltyTracker.init "A").add_measurement (.fin 1) (.fin 1) (.fin 1)).1.calculate_metrics
        (.fin 5) (.fin 5) (.fin 5) := by
  intro h
  have h2 := congrArg MetricRecord.timestamp h
  rw [calculate_metrics_timestamp, calculate_metrics_timestamp,
    add_measurement_history] at h2
  simp [LoyaltyTracker.init] at h2

/-- C1 (amended): `calculate_metrics` is pure with respect to state in every
field except `timestamp`: two calls with identical inputs on trackers that
differ only in their history agree on all other fields, while the
`timestamp` field is assigned by `calculate_metrics` itself (not by the
caller) as the respective history length + 1. -/
theorem calculate_metrics_pure_except_timestamp (t : LoyaltyTracker)
    (h2 : List MetricRecord) (s d m : PyFloat) :
    (t.calculate_metrics s d m).timestamp = t.history.length + 1 ∧
    (({ t with history := h2 } : LoyaltyTracker).calculate_metrics s d m).timestamp
      = h2.length + 1 ∧
    (t.calculate_metrics s d m).satisfaction
      = (({ t with history := h2 } : LoyaltyTracker).calculate_metrics s d m).satisfaction ∧
    (t.calculate_metrics s d m).true_satisfaction
      = (({ t with history := h2 } : LoyaltyTracker).calculate_metrics s d m).true_satisfaction ∧
    (t.calculate_metrics s d m).dependency
      = (({ t with history := h2 } : LoyaltyTracker).calculate_metrics s d m).dependency ∧
    (t.calculate_metrics s d m).manipulation
      = (({ t with history := h2 } : LoyaltyTracker).calculate_metrics s d m).manipulation ∧
    (t.calculate_metrics s d m).emotional_vulnerability
      = (({ t with history := h2 } : LoyaltyTracker).calculate_metrics s d m).emotional_vulnerability ∧
    (t.calculate_metrics s d m).autonomy
      = (({ t with history := h2 } : LoyaltyTracker).calculate_metrics s d m).autonomy ∧
    (t.calculate_metrics s d m).power_imbalance
      = (({ t with history := h2 } : LoyaltyTracker).calculate_metrics s d m).power_imbalance ∧
    (t.calculate_metrics s d m).health_score
      = (({ t with history := h2 } : LoyaltyTracker).calculate_metrics s d m).health_score ∧
    (t.calculate_metrics s d m).loyalty_state
      = (({ t with history := h2 } : LoyaltyTracker).calculate_metrics s d m).loyalty_state ∧
    (t.calculate_metrics s d m).risk_factors
      = (({ t with history := h2 } : LoyaltyTracker).calculate_metrics s d m).risk_factors :=
  ⟨rfl, rfl, rfl, rfl, rfl, rfl, rfl, rfl, rfl, rfl, rfl, rfl⟩

/-- C2 counterexample: `add_measurement` does not return the appended
`MetricRecord` to the caller.  The Python function body (lines 67-70) has no
`return` statement, so the call returns `None`. -/
theorem add_measurement_returns_none :
    ((LoyaltyTracker.init "A").add_measurement (.fin 1) (.fin 2) (.fin 3)).2 = none := rfl

/-- C2 (amended): `add_measurement(s,d,m)` computes the record via
`calculate_metrics` (which assigns `sequence = length + 1`), appends it, and
grows the log by exactly one entry, with no failure modes — but it returns
`None`, not the record. -/
theorem add_measurement_appends_with_sequence (t : LoyaltyTracker)
    (s d m : PyFloat) :
    t.add_measurement s d m
      = ({ t with history := t.history ++ [t.calculate_metrics s d m] }, none) ∧
    (t.calculate_metrics s d m).timestamp = t.history.length + 1 ∧
    (t.add_measurement s d m).1.history.length = t.history.length + 1 := by
  refine ⟨rfl, rfl, ?_⟩
  rw [add_measurement_history]
  simp

/-- C3 counterexample: a NaN input is not rejected before clamping.
`calculate_metrics` on NaN satisfaction produces exactly the `MetricRecord`
it produces for satisfaction 10, because `max(0, min(10, NaN))` evaluates to
10 under Python comparison semantics; no `InvalidInputError` path exists in
the source. -/
theorem calculate_metrics_accepts_nan :
    (LoyaltyTracker.init "A").calculate_metrics .nan (.fin 0) (.fin 0)
      = (LoyaltyTracker.init "A").calculate_metrics (.fin 10) (.fin 0) (.fin 0) :=
  calculate_metrics_congr _ (by rw [clampQ_nan, clampQ_fin]; norm_num) rfl rfl

/-- C3 (amended): the implementation performs no finiteness check and never
raises: any non-finite input, in any of the three argument positions, is
clamped (NaN and +inf to 10, -inf to 0) and a `MetricRecord` is produced,
identical to the record for the corresponding finite clamped input. -/
theorem calculate_metrics_clamps_nonfinite (t : LoyaltyTracker)
    (x s d m : PyFloat) (hx : x.isFin = false) :
    (clampQ x = 10 ∨ clampQ x = 0) ∧
    t.calculate_metrics x d m = t.calculate_metrics (.fin (clampQ x)) d m ∧
    t.calculate_metrics s x m = t.calculate_metrics s (.fin (clampQ x)) m ∧
    t.calculate_metrics s d x = t.calculate_metrics s d (.fin (clampQ x)) := by
  refine ⟨?_, calculate_metrics_congr t (clampQ_idem x).symm rfl rfl,
    calculate_metrics_congr t rfl (clampQ_idem x).symm rfl,
    calculate_metrics_congr t rfl rfl (clampQ_idem x).symm⟩
  cases x with
  | fin q => simp [PyFloat.isFin] at hx
  | nan => exact Or.inl clampQ_nan
  | inf => exact Or.inl clampQ_inf
  | ninf => exact Or.inr clampQ_ninf

/-- Witness for C3 (amended) at the concrete non-finite input NaN. -/
theorem calculate_metrics_clamps_nonfinite_witness :
    PyFloat.nan.isFin = false ∧
    ((clampQ .nan = 10 ∨ clampQ .nan = 0) ∧
     (LoyaltyTracker.init "W").calculate_metrics .nan (.fin 1) (.fin 2)
       = (LoyaltyTracker.init "W").calculate_metrics (.fin (clampQ .nan)) (.fin 1) (.fin 2) ∧
     (LoyaltyTracker.init "W").calculate_metrics (.fin 3) .nan (.fin 2)
       = (LoyaltyTracker.init "W").calculate_metrics (.fin 3) (.fin (clampQ .nan)) (.fin 2) ∧
     (LoyaltyTracker.init "W").calculate_metrics (.fin 3) (.fin 1) .nan
       = (LoyaltyTracker.init "W").calculate_metrics (.fin 3) (.fin 1) (.fin (clampQ .nan))) :=
  ⟨rfl, calculate_metrics_clamps_nonfinite (LoyaltyTracker.init "W") .nan
    (.fin 3) (.fin 1) (.fin 2) rfl⟩

/-- C4: for every input (the clamp makes all inputs valid), the derived
metrics stored in the returned record satisfy the range invariants:
`true_satisfaction`, `autonomy`, `emotional_vulnerability` and
`power_imbalance` lie in [0,10] and `health_score` lies in [0,100]. -/
theorem calculate_metrics_range_invariants (t : LoyaltyTracker)
    (s d m : PyFloat) :
    (0 ≤ (t.calculate_metrics s d m).true_satisfaction ∧
      (t.calculate_metrics s d m).true_satisfaction ≤ 10) ∧
    (0 ≤ (t.calculate_metrics s d m).autonomy ∧
      (t.calculate_metrics s d m).autonomy ≤ 10) ∧
    (0 ≤ (t.calculate_metrics s d m).emotional_vulnerability ∧
      (t.calculate_metrics s d m).emotional_vulnerability ≤ 10) ∧
    (0 ≤ (t.calculate_metrics s d m).power_imbalance ∧
      (t.calculate_metrics s d m).power_imbalance ≤ 10) ∧
    (0 ≤ (t.calculate_metrics s d m).health_score ∧
      (t.calculate_metrics s d m).health_score ≤ 100) := by
  have hs0 := clampQ_nonneg s
  have hs10 := clampQ_le_ten s
  have hd0 := clampQ_nonneg d
  have hd10 := clampQ_le_ten d
  have hm0 := clampQ_nonneg m
  have hm10 := clampQ_le_ten m
  refine ⟨⟨?_, ?_⟩, ⟨?_, ?_⟩, ⟨?_, ?_⟩, ⟨?_, ?_⟩, ⟨?_, ?_⟩⟩
  · rw [calculate_metrics_true_satisfaction]
    exact pyround_nonneg (true_satisfactionF_nonneg hs0 hm10) 2
  · rw [calculate_metrics_true_satisfaction]
    exact_mod_cast pyround_le_intCast
      (z := 10) (by exact_mod_cast true_satisfactionF_le_ten hs10 hs0 hm0) 2
  · rw [calculate_metrics_autonomy]
    exact pyround_nonneg (autonomyF_nonneg _ _) 2
  · rw [calculate_metrics_autonomy]
    exact_mod_cast pyround_le_intCast
      (z := 10) (by exact_mod_cast autonomyF_le_ten hd0 hm0) 2
  · rw [calculate_metrics_emotional_vulnerability]
    exact pyround_nonneg (emotional_vulnerabilityF_nonneg hd0 hm0) 2
  · rw [calculate_metrics_emotional_vulnerability]
    exact_mod_cast pyround_le_intCast
      (z := 10) (by exact_mod_cast emotional_vulnerabilityF_le_ten _ _) 2
  · rw [calculate_metrics_power_imbalance]
    exact pyround_nonneg (power_imbalanceF_nonneg hd0 hm0) 2
  · rw [calculate_metrics_power_imbalance]
    exact_mod_cast pyround_le_intCast
      (z := 10) (by exact_mod_cast power_imbalanceF_le_ten _ _) 2
  · rw [calculate_metrics_health_score]
    exact pyround_nonneg (health_scoreF_nonneg hs0 hd10 hm10) 1
  · rw [calculate_metrics_health_score]
    exact_mod_cast pyround_le_intCast
      (z := 100) (by exact_mod_cast health_scoreF_le_hundred hs0 hs10 hd0 hm0) 1

/-- C5: the stored `health_score` is monotone in each input: increasing
satisfaction (dependency and manipulation fixed) never decreases it;
increasing dependency (satisfaction and manipulation fixed) never increases
it; increasing manipulation (satisfaction and dependency fixed) never
increases it. -/
theorem health_score_monotone (t : LoyaltyTracker) (s s' d d' m m' : ℚ)
    (hs : s ≤ s') (hd : d ≤ d') (hm : m ≤ m') :
    (t.calculate_metrics (.fin s) (.fin d) (.fin m)).health_score
      ≤ (t.calculate_metrics (.fin s') (.fin d) (.fin m)).health_score ∧
    (t.calculate_metrics (.fin s) (.fin d') (.fin m)).health_score
      ≤ (t.calculate_metrics (.fin s) (.fin d) (.fin m)).health_score ∧
    (t.calculate_metrics (.fin s) (.fin d) (.fin m')).health_score
      ≤ (t.calculate_metrics (.fin s) (.fin d) (.fin m)).health_score := by
  simp only [calculate_metrics_health_score]
  exact ⟨pyround_mono (health_scoreF_mono_s (clampQ_le_ten _) (clampQ_fin_mono hs)) 1,
    pyround_mono (health_scoreF_anti_d (clampQ_fin_mono hd)) 1,
    pyround_mono (health_scoreF_anti_m (clampQ_nonneg _) (clampQ_fin_mono hm)) 1⟩

/-- Witness for C5 at the concrete inputs s: 1 ≤ 2, d: 1 ≤ 2, m: 1 ≤ 2. -/
theorem health_score_monotone_witness :
    (1:ℚ) ≤ 2 ∧
    (((LoyaltyTracker.init "W").calculate_metrics (.fin 1) (.fin 1) (.fin 1)).health_score
        ≤ ((LoyaltyTracker.init "W").calculate_metrics (.fin 2) (.fin 1) (.fin 1)).health_score ∧
      ((LoyaltyTracker.init "W").calculate_metrics (.fin 1) (.fin 2) (.fin 1)).health_score
        ≤ ((LoyaltyTracker.init "W").calculate_metrics (.fin 1) (.fin 1) (.fin 1)).health_score ∧
      ((LoyaltyTracker.init "W").calculate_metrics (.fin 1) (.fin 1) (.fin 2)).health_score
        ≤ ((LoyaltyTracker.init "W").calculate_metrics (.fin 1) (.fin 1) (.fin 1)).health_score) :=
  ⟨by norm_num, health_score_monotone (LoyaltyTracker.init "W") 1 2 1 2 1 2
    (by norm_num) (by norm_num) (by norm_num)⟩

/-- C10: `add_measurement` modifies only the history, by appending exactly
one new record (the one computed by `calculate_metrics`): the tracker's
name, its loyalty-state table and every previously appended record are
unchanged. -/
theorem add_measurement_frame_condition (t : LoyaltyTracker) (s d m : PyFloat) :
    (t.add_measurement s d m).1.name = t.name ∧
    (t.add_measurement s d m).1.loyalty_states = t.loyalty_states ∧
    (t.add_measurement s d m).1.history = t.history ++ [t.calculate_metrics s d m] ∧
    (t.add_measurement s d m).1.history.length = t.history.length + 1 ∧
    (t.add_measurement s d m).1.history.take t.history.length = t.history := by
  refine ⟨rfl, rfl, rfl, ?_, ?_⟩
  · rw [add_measurement_history]
    simp
  · rw [add_measurement_history, List.take_left]

/-- C6: for every nonnegative health score (in particular every score in
[0,100]) the state-selection loop picks exactly the first entry of the
loyalty-state table, in its fixed order Healthy, Stable, At Risk, Unstable,
Toxic, whose threshold is at most the score: the selected entry's threshold
is ≤ the score and every earlier entry's threshold exceeds it (the
0-threshold floor of "Toxic" guarantees a match, so the defensive default is
never used for such scores). -/
theorem selectState_first_threshold_match (h : ℚ) (h0 : 0 ≤ h) :
    ∃ i : Fin initialLoyaltyStates.length,
      selectState initialLoyaltyStates h = (initialLoyaltyStates.get i).1 ∧
      (initialLoyaltyStates.get i).2.threshold ≤ h ∧
      ∀ j : Fin initialLoyaltyStates.length, j < i →
        h < (initialLoyaltyStates.get j).2.threshold := by
  rcases le_or_lt 75 h with h75 | h75
  · refine ⟨⟨0, by norm_num [initialLoyaltyStates]⟩, ?_, ?_, ?_⟩
    · simp [selectState, initialLoyaltyStates, h75]
    · simpa [initialLoyaltyStates] using h75
    · rintro ⟨jv, hjlt⟩ hj
      simp only [Fin.lt_def] at hj
      omega
  rcases le_or_lt 60 h with h60 | h60
  · refine ⟨⟨1, by norm_num [initialLoyaltyStates]⟩, ?_, ?_, ?_⟩
    · simp [selectState, initialLoyaltyStates, h60, not_le.2 h75]
    · simpa [initialLoyaltyStates] using h60
    · rintro ⟨jv, hjlt⟩ hj
      simp only [Fin.lt_def] at hj
      interval_cases jv
      · simpa [initialLoyaltyStates] using h75
  rcases le_or_lt 50 h with h50 | h50
  · refine ⟨⟨2, by norm_num [initialLoyaltyStates]⟩, ?_, ?_, ?_⟩
    · simp [selectState, initialLoyaltyStates, h50, not_le.2 h75, not_le.2 h60]
    · simpa [initialLoyaltyStates] using h50
    · rintro ⟨jv, hjlt⟩ hj
      simp only [Fin.lt_def] at hj
      interval_cases jv
      · simpa [initialLoyaltyStates] using h75
      · simpa [initialLoyaltyStates] using h60
  rcases le_or_lt 40 h with h40 | h40
  · refine ⟨⟨3, by norm_num [initialLoyaltyStates]⟩, ?_, ?_, ?_⟩
    · rw [show selectState initialLoyaltyStates h = "Unstable" from by
        simp [selectState, initialLoyaltyStates, h40, not_le.2 h75, not_le.2 h60,
          not_le.2 h50]]
      rfl
    · simpa [initialLoyaltyStates] using h40
    · rintro ⟨jv, hjlt⟩ hj
      simp only [Fin.lt_def] at hj
      interval_cases jv
      · simpa [initialLoyaltyStates] using h75
      · simpa [initialLoyaltyStates] using h60
      · simpa [initialLoyaltyStates] using h50
  · refine ⟨⟨4, by norm_num [initialLoyaltyStates]⟩, ?_, ?_, ?_⟩
    · rw [show selectState initialLoyaltyStates h = "Toxic" from by
        simp [selectState, initialLoyaltyStates, h0, not_le.2 h75, not_le.2 h60,
          not_le.2 h50, not_le.2 h40]]
      rfl
    · simpa [initialLoyaltyStates] using h0
    · rintro ⟨jv, hjlt⟩ hj
      simp only [Fin.lt_def] at hj
      interval_cases jv
      · simpa [initialLoyaltyStates] using h75
      · simpa [initialLoyaltyStates] using h60
      · simpa [initialLoyaltyStates] using h50
      · simpa [initialLoyaltyStates] using h40

/-- Witness for C6 at the concrete health score 70. -/
theorem selectState_first_threshold_match_witness :
    (0:ℚ) ≤ 70 ∧
    (∃ i : Fin initialLoyaltyStates.length,
      selectState initialLoyaltyStates 70 = (initialLoyaltyStates.get i).1 ∧
      (initialLoyaltyStates.get i).2.threshold ≤ 70 ∧
      ∀ j : Fin initialLoyaltyStates.length, j < i →
        (70:ℚ) < (initialLoyaltyStates.get j).2.threshold) :=
  ⟨by norm_num, selectState_first_threshold_match 70 (by norm_num)⟩

/-- C7: after running any list of `add_measurement` calls on a fresh
tracker, the history has as many records as there were calls, the i-th
record (0-based) carries sequence number i+1 (so sequence values are exactly
1..N with no gaps), and any later appends leave the already-present records
untouched (the old history is exactly the prefix of the new one). -/
theorem history_sequence_invariant (name : String)
    (inputs extra : List (PyFloat × PyFloat × PyFloat)) :
    (runAppends (LoyaltyTracker.init name) inputs).history.length = inputs.length ∧
    (∀ i (hi : i < (runAppends (LoyaltyTracker.init name) inputs).history.length),
      ((runAppends (LoyaltyTracker.init name) inputs).history.get ⟨i, hi⟩).timestamp
        = i + 1) ∧
    (runAppends (runAppends (LoyaltyTracker.init name) inputs) extra).history.take
        (runAppends (LoyaltyTracker.init name) inputs).history.length
      = (runAppends (LoyaltyTracker.init name) inputs).history := by
  refine ⟨?_, ?_, ?_⟩
  · rw [runAppends_history_length]
    simp [LoyaltyTracker.init]
  · refine runAppends_timestamps _ _ ?_
    intro i hi
    simp [LoyaltyTracker.init] at hi
  · obtain ⟨r, hr⟩ :=
      runAppends_history_extends (runAppends (LoyaltyTracker.init name) inputs) extra
    rw [hr, List.take_left]

/-- Witness for C7 at a concrete run: two appends followed by one more. -/
theorem history_sequence_invariant_witness :
    (runAppends (LoyaltyTracker.init "W")
        [(.fin 1, .fin 2, .fin 3), (.fin 4, .fin 5, .fin 6)]).history.length
      = [((.fin 1 : PyFloat), (.fin 2 : PyFloat), (.fin 3 : PyFloat)),
         ((.fin 4 : PyFloat), (.fin 5 : PyFloat), (.fin 6 : PyFloat))].length ∧
    (∀ i (hi : i < (runAppends (LoyaltyTracker.init "W")
        [(.fin 1, .fin 2, .fin 3), (.fin 4, .fin 5, .fin 6)]).history.length),
      ((runAppends (LoyaltyTracker.init "W")
        [(.fin 1, .fin 2, .fin 3), (.fin 4, .fin 5, .fin 6)]).history.get
          ⟨i, hi⟩).timestamp = i + 1) ∧
    (runAppends (runAppends (LoyaltyTracker.init "W")
        [(.fin 1, .fin 2, .fin 3), (.fin 4, .fin 5, .fin 6)])
        [(.fin 7, .fin 8, .fin 9)]).history.take
        (runAppends (LoyaltyTracker.init "W")
          [(.fin 1, .fin 2, .fin 3), (.fin 4, .fin 5, .fin 6)]).history.length
      = (runAppends (LoyaltyTracker.init "W")
          [(.fin 1, .fin 2, .fin 3), (.fin 4, .fin 5, .fin 6)]).history :=
  history_sequence_invariant "W"
    [(.fin 1, .fin 2, .fin 3), (.fin 4, .fin 5, .fin 6)]
    [(.fin 7, .fin 8, .fin 9)]

/-- C8 counterexample: `compute(0,0,0)` does not return an empty risk-factor
set.  Since `true_satisfaction = 0 < 4`, the "Low Satisfaction" flag is
appended (line 43 of the source). -/
theorem scenario3_risk_factors_nonempty :
    ((LoyaltyTracker.init "A").calculate_metrics (.fin 0) (.fin 0) (.fin 0)).risk_factors
      ≠ ([] : List String) := by
  norm_num [calculate_metrics_risk_factors, risk_factorsF, clampQ_fin,
    true_satisfactionF, autonomyF]

/-- C8 (amended): `compute(0,0,0)` returns true_satisfaction = 0,
autonomy = 10, power_imbalance = 0, health_score = 70 (0+25+25+20) and
state "Stable", but its risk-factor set is `["Low Satisfaction"]`, not
empty, because `true_satisfaction = 0 < 4` triggers that flag. -/
theorem scenario3_record_values :
    ((LoyaltyTracker.init "A").calculate_metrics (.fin 0) (.fin 0) (.fin 0)).true_satisfaction
      = 0 ∧
    ((LoyaltyTracker.init "A").calculate_metrics (.fin 0) (.fin 0) (.fin 0)).autonomy
      = 10 ∧
    ((LoyaltyTracker.init "A").calculate_metrics (.fin 0) (.fin 0) (.fin 0)).power_imbalance
      = 0 ∧
    ((LoyaltyTracker.init "A").calculate_metrics (.fin 0) (.fin 0) (.fin 0)).health_score
      = 70 ∧
    ((LoyaltyTracker.init "A").calculate_metrics (.fin 0) (.fin 0) (.fin 0)).loyalty_state
      = "Stable" ∧
    ((LoyaltyTracker.init "A").calculate_metrics (.fin 0) (.fin 0) (.fin 0)).risk_factors
      = ["Low Satisfaction"] := by
  refine ⟨?_, ?_, ?_, ?_, ?_, ?_⟩
  · norm_num [calculate_metrics_true_satisfaction, clampQ_fin, true_satisfactionF,
      pyround, rhe]
  · norm_num [calculate_metrics_autonomy, clampQ_fin, autonomyF, pyround, rhe]
  · norm_num [calculate_metrics_power_imbalance, clampQ_fin, power_imbalanceF,
      pyround, rhe]
  · norm_num [calculate_metrics_health_score, clampQ_fin, health_scoreF,
      true_satisfactionF, autonomyF, power_imbalanceF, pyround, rhe]
  · norm_num [calculate_metrics_loyalty_state, LoyaltyTracker.init,
      initialLoyaltyStates, selectState, clampQ_fin, health_scoreF,
      true_satisfactionF, autonomyF, power_imbalanceF]
  · norm_num [calculate_metrics_risk_factors, risk_factorsF, clampQ_fin,
      true_satisfactionF, autonomyF]

/-- C9: `compute(2,8,7)` returns a record whose risk factors include both
"High Manipulation" (manipulation 7 > 6) and "High Dependency"
(dependency 8 > 7), whose health score is well below 40 (it is 19.6), and
whose loyalty state is "Toxic". -/
theorem scenario2_toxic_with_risk_flags :
    "High Manipulation" ∈
      ((LoyaltyTracker.init "A").calculate_metrics (.fin 2) (.fin 8) (.fin 7)).risk_factors ∧
    "High Dependency" ∈
      ((LoyaltyTracker.init "A").calculate_metrics (.fin 2) (.fin 8) (.fin 7)).risk_factors ∧
    ((LoyaltyTracker.init "A").calculate_metrics (.fin 2) (.fin 8) (.fin 7)).health_score
      < 40 ∧
    ((LoyaltyTracker.init "A").calculate_metrics (.fin 2) (.fin 8) (.fin 7)).loyalty_state
      = "Toxic" := by
  have hr : ((LoyaltyTracker.init "A").calculate_metrics (.fin 2) (.fin 8) (.fin 7)).risk_factors
      = ["High Manipulation", "High Dependency", "Low Satisfaction", "Low Autonomy"] := by
    norm_num [calculate_metrics_risk_factors, risk_factorsF, clampQ_fin,
      true_satisfactionF, autonomyF]
  refine ⟨?_, ?_, ?_, ?_⟩
  · rw [hr]
    simp
  · rw [hr]
    simp
  · rw [calculate_metrics_health_score]
    norm_num [clampQ_fin, health_scoreF, true_satisfactionF, autonomyF,
      power_imbalanceF, pyround, rhe]
  · norm_num [calculate_metrics_loyalty_state, LoyaltyTracker.init,
      initialLoyaltyStates, selectState, clampQ_fin, health_scoreF,
      true_satisfactionF, autonomyF, power_imbalanceF]
